import Mathlib

/-!
Verification of the structured-extraction pipeline in this repository
(src/main.py and src/main2.py) against its natural-language specification.

The two Python scripts share one data model (`PublicationDetail`), one
agent configuration (a pydantic_ai `Agent` with a registered
`get_pdf_content` tool and `result_type=PublicationDetail`), a
lexicographically sorted `*.pdf` listing with an offset/count window, and
a sequential batch loop with per-file exception isolation.  main.py
additionally writes one sibling `.txt` file per successful input
(`process_pdf`, src/main.py:95-103); main2.py only prints results.

Machine integers do not occur; all counting is on `Nat`/`Int`.  Paths are
modelled by their final file-name component (the directory prefix is
common to input and output and never inspected by the code).  The
filesystem is modelled as a map from path to file content, with the
single write in src/main.py:96-102 (`open(...,'w')` + `json.dump`)
modelled as one atomic update.
-/

/-- The record type of src/main.py:22-25 and src/main2.py:17-20.
`publication_name` is declared `Literal['activist', 'transport worker',
'national conference', 'other']`; `date` and `headline` are plain `str`
fields (in main.py they carry a `Field(description=...)` annotation,
which is documentation for the model, not a validator). -/
structure PublicationDetail where
  publication_name : String
  date : String
  headline : String
deriving DecidableEq

/-- The exact `Literal` alternatives of src/main.py:23 / src/main2.py:18. -/
def publicationLiterals : List String :=
  ["activist", "transport worker", "national conference", "other"]

/-- Pydantic validation of a `PublicationDetail` candidate, as the model
declaration induces it: the `Literal` field is an exact, case-sensitive
membership test; `date` and `headline` are accepted unconditionally
(both are bare `str` fields — the MM/YYYY-or-YYYY wording in main.py
line 24 lives only in the field description). -/
def validatePublicationDetail (publication_name date headline : String) :
    Option PublicationDetail :=
  if publication_name ∈ publicationLiterals then
    some ⟨publication_name, date, headline⟩
  else
    none

/-- The publication enumeration exactly as the specification words it
(§3 of the spec): underscored identifiers.  Kept separate from
`publicationLiterals` so the two spellings can be compared. -/
def specPublicationValues : List String :=
  ["activist", "transport_worker", "national_conference", "other"]

/-- The lexical date shape the specification demands (§3): `MM/YYYY`
(two digits, slash, four digits) or `YYYY` (four digits).  This is the
spec's predicate; the source declares no such check. -/
def specDateShape (s : String) : Bool :=
  match s.toList with
  | [m1, m2, '/', y1, y2, y3, y4] =>
      m1.isDigit && m2.isDigit && y1.isDigit && y2.isDigit && y3.isDigit && y4.isDigit
  | [y1, y2, y3, y4] => y1.isDigit && y2.isDigit && y3.isDigit && y4.isDigit
  | _ => false

/-- C1 (counterexample): the claim's enumeration uses underscored values.
`transport_worker` is in the claimed set yet the code rejects it, while
`transport worker` (with a space) is outside the claimed set yet the
code accepts it. -/
theorem c1_counterexample :
    ("transport_worker" ∈ specPublicationValues
      ∧ validatePublicationDetail ("transport_worker") ("01/1987") ("Strike") = none)
    ∧ ("transport worker" ∉ specPublicationValues
      ∧ (validatePublicationDetail ("transport worker") ("01/1987") ("Strike")).isSome = true) := by
  refine ⟨⟨by decide, ?_⟩, ⟨by decide, ?_⟩⟩ <;> decide

/-- C1 (amended): a parsed model output's publication field is accepted
iff it is exactly one of `activist`, `transport worker`,
`national conference`, `other` — the four `Literal` alternatives with
spaces — compared case-sensitively with no normalization. -/
theorem c1_publication_enum (p d h : String) :
    (validatePublicationDetail p d h).isSome = true
      ↔ (p = "activist" ∨ p = "transport worker"
          ∨ p = "national conference" ∨ p = "other") := by
  unfold validatePublicationDetail
  split
  · next hmem =>
      simp only [Option.isSome_some, true_iff]
      simpa [publicationLiterals] using hmem
  · next hmem =>
      simp only [Option.isSome_none, Bool.false_eq_true, false_iff]
      simpa [publicationLiterals] using hmem

/-- C1 (witness for the amended theorem): at `p = "transport worker"`
both sides of the equivalence hold. -/
theorem c1_publication_enum_witness :
    (validatePublicationDetail ("transport worker") ("01/1987") ("Strike")).isSome = true :=
  (c1_publication_enum ("transport worker") ("01/1987") ("Strike")).mpr
    (Or.inr (Or.inl rfl))

/-- C2 (counterexample): a date of a shape other than MM/YYYY or YYYY is
still accepted — the model declarations never validate the date, so no
ParseError arises.  `March 2020` fails the spec's lexical shape yet the
code produces a record from it. -/
theorem c2_counterexample :
    specDateShape ("March 2020") = false
    ∧ validatePublicationDetail ("activist") ("March 2020") ("Strike")
        = some ⟨"activist", "March 2020", "Strike"⟩ := by
  constructor
  · decide
  · decide

/-- C2 (amended): the date field is accepted unconditionally; validation
never inspects it (it is a bare `str` field in both sources, with only a
descriptive annotation in main.py), so acceptance of a parsed output is
independent of the date value. -/
theorem c2_date_not_validated (p d1 d2 h : String) :
    (validatePublicationDetail p d1 h).isSome
      = (validatePublicationDetail p d2 h).isSome := by
  unfold validatePublicationDetail
  split <;> simp_all

/-! ### Serialization (src/main.py:96-102)

`json.dump({"publication": .., "date": .., "headline": ..}, f, indent=2)`
produces exactly
`{\x7b}\n  "publication": "P",\n  "date": "D",\n  "headline": "H"\n{\x7d}`
with each value string escaped the way CPython's JSON encoder does with
its default `ensure_ascii=True`: `"` and `\` get a backslash, the named
control escapes are used for \n \t \r \b \f, every other character
outside the printable ASCII range 0x20-0x7e becomes `\uXXXX` (a
surrogate pair above 0xFFFF). -/

/-- The low hex digit of `n`, lower-case as CPython prints it: code
point 48-57 for 0-9, 97-102 for a-f. -/
def hexDigit (n : Nat) : Char :=
  if n % 16 < 10 then Char.ofNat (48 + n % 16) else Char.ofNat (87 + n % 16)

def uEsc (n : Nat) : List Char :=
  ['\\', 'u', hexDigit (n / 4096), hexDigit (n / 256), hexDigit (n / 16), hexDigit n]

def escChar (c : Char) : List Char :=
  if c = '"' then ['\\', '"']
  else if c = '\\' then ['\\', '\\']
  else if c = '\n' then ['\\', 'n']
  else if c = '\t' then ['\\', 't']
  else if c = '\r' then ['\\', 'r']
  else if c.toNat = 8 then ['\\', 'b']
  else if c.toNat = 12 then ['\\', 'f']
  else if c.toNat < 32 ∨ 126 < c.toNat then
    (if c.toNat < 65536 then uEsc c.toNat
     else uEsc (55296 + (c.toNat - 65536) / 1024) ++ uEsc (56320 + (c.toNat - 65536) % 1024))
  else [c]

def escList (l : List Char) : List Char := (l.map escChar).flatten

/-- The fixed pieces of the `indent=2` output of src/main.py:98-102,
around the three escaped values. -/
def tplA : List Char := ("\x7b\n  \"publication\": \"").toList

def tplB : List Char := ("\",\n  \"date\": \"").toList

def tplC : List Char := ("\",\n  \"headline\": \"").toList

def tplD : List Char := ("\"\n\x7d").toList

def serializeChars (d : PublicationDetail) : List Char :=
  tplA ++ (escList d.publication_name.toList
    ++ (tplB ++ (escList d.date.toList
      ++ (tplC ++ (escList d.headline.toList ++ tplD)))))

def serialize (d : PublicationDetail) : String := String.mk (serializeChars d)

/-! ### An independent observer of the serialized text

`keysOf` re-parses a flat JSON object with string values and returns its
top-level keys in textual order.  It is a spec-side characterization
("exactly three top-level fields in a fixed order"), written from the
spec's words, used to check the serializer's output. -/

def isWsC (c : Char) : Bool := c = ' ' || c = '\n' || c = '\t' || c = '\r'

inductive JState where
  | preKey | inKey | preColon | preVal | inVal | inValEsc | postVal

def keysScan : JState → List Char → List String → List Char → Option (List String)
  | _, _, _, [] => none
  | .preKey, ka, ks, c :: rest =>
      if isWsC c then keysScan .preKey ka ks rest
      else if c = '"' then keysScan .inKey [] ks rest
      else if c = '}' then some ks.reverse
      else none
  | .inKey, ka, ks, c :: rest =>
      if c = '"' then keysScan .preColon ka (String.mk ka.reverse :: ks) rest
      else keysScan .inKey (c :: ka) ks rest
  | .preColon, ka, ks, c :: rest =>
      if isWsC c then keysScan .preColon ka ks rest
      else if c = ':' then keysScan .preVal ka ks rest
      else none
  | .preVal, ka, ks, c :: rest =>
      if isWsC c then keysScan .preVal ka ks rest
      else if c = '"' then keysScan .inVal ka ks rest
      else none
  | .inVal, ka, ks, c :: rest =>
      if c = '"' then keysScan .postVal ka ks rest
      else if c = '\\' then keysScan .inValEsc ka ks rest
      else keysScan .inVal ka ks rest
  | .inValEsc, ka, ks, _ :: rest => keysScan .inVal ka ks rest
  | .postVal, ka, ks, c :: rest =>
      if isWsC c then keysScan .postVal ka ks rest
      else if c = ',' then keysScan .preKey ka ks rest
      else if c = '}' then some ks.reverse
      else none

def skipWs : List Char → List Char
  | [] => []
  | c :: rest => if isWsC c then skipWs rest else c :: rest

def keysOf (s : String) : Option (List String) :=
  match skipWs s.toList with
  | '{' :: rest => keysScan JState.preKey [] [] rest
  | _ => none

lemma hexDigit_ne (n : Nat) : hexDigit n ≠ '"' ∧ hexDigit n ≠ '\\' := by
  have h : n % 16 < 16 := Nat.mod_lt _ (by decide)
  unfold hexDigit
  revert h
  generalize n % 16 = m
  revert m
  decide

lemma keysScan_bsPair (e : Char) (ka : List Char) (ks : List String) (l : List Char) :
    keysScan JState.inVal ka ks ('\\' :: e :: l) = keysScan JState.inVal ka ks l := rfl

lemma keysScan_plain (c : Char) (h1 : c ≠ '"') (h2 : c ≠ '\\')
    (ka : List Char) (ks : List String) (l : List Char) :
    keysScan JState.inVal ka ks (c :: l) = keysScan JState.inVal ka ks l := by
  show (if c = '"' then keysScan JState.postVal ka ks l
        else if c = '\\' then keysScan JState.inValEsc ka ks l
        else keysScan JState.inVal ka ks l) = keysScan JState.inVal ka ks l
  rw [if_neg h1, if_neg h2]

lemma keysScan_uEsc (n : Nat) (ka : List Char) (ks : List String) (l : List Char) :
    keysScan JState.inVal ka ks (uEsc n ++ l) = keysScan JState.inVal ka ks l := by
  show keysScan JState.inVal ka ks
      ('\\' :: 'u' :: hexDigit (n / 4096) :: hexDigit (n / 256)
        :: hexDigit (n / 16) :: hexDigit n :: l) = keysScan JState.inVal ka ks l
  rw [keysScan_bsPair]
  rw [keysScan_plain _ (hexDigit_ne _).1 (hexDigit_ne _).2]
  rw [keysScan_plain _ (hexDigit_ne _).1 (hexDigit_ne _).2]
  rw [keysScan_plain _ (hexDigit_ne _).1 (hexDigit_ne _).2]
  rw [keysScan_plain _ (hexDigit_ne _).1 (hexDigit_ne _).2]

lemma keysScan_escChar (c : Char) (ka : List Char) (ks : List String) (l : List Char) :
    keysScan JState.inVal ka ks (escChar c ++ l) = keysScan JState.inVal ka ks l := by
  unfold escChar
  by_cases h1 : c = '"'
  · rw [if_pos h1]; exact keysScan_bsPair _ _ _ _
  rw [if_neg h1]
  by_cases h2 : c = '\\'
  · rw [if_pos h2]; exact keysScan_bsPair _ _ _ _
  rw [if_neg h2]
  by_cases h3 : c = '\n'
  · rw [if_pos h3]; exact keysScan_bsPair _ _ _ _
  rw [if_neg h3]
  by_cases h4 : c = '\t'
  · rw [if_pos h4]; exact keysScan_bsPair _ _ _ _
  rw [if_neg h4]
  by_cases h5 : c = '\r'
  · rw [if_pos h5]; exact keysScan_bsPair _ _ _ _
  rw [if_neg h5]
  by_cases h6 : c.toNat = 8
  · rw [if_pos h6]; exact keysScan_bsPair _ _ _ _
  rw [if_neg h6]
  by_cases h7 : c.toNat = 12
  · rw [if_pos h7]; exact keysScan_bsPair _ _ _ _
  rw [if_neg h7]
  by_cases h8 : c.toNat < 32 ∨ 126 < c.toNat
  · rw [if_pos h8]
    by_cases h9 : c.toNat < 65536
    · rw [if_pos h9]; exact keysScan_uEsc _ _ _ _
    · rw [if_neg h9, List.append_assoc, keysScan_uEsc, keysScan_uEsc]
  · rw [if_neg h8]
    exact keysScan_plain c h1 h2 ka ks l

lemma keysScan_escList (v : List Char) (ka : List Char) (ks : List String) (l : List Char) :
    keysScan JState.inVal ka ks (escList v ++ l) = keysScan JState.inVal ka ks l := by
  induction v with
  | nil => rfl
  | cons c v ih =>
      show keysScan JState.inVal ka ks ((escChar c ++ escList v) ++ l) = _
      rw [List.append_assoc, keysScan_escChar, ih]

lemma keysOf_stepA (l : List Char) :
    keysOf (String.mk (tplA ++ l))
      = keysScan JState.inVal ['n', 'o', 'i', 't', 'a', 'c', 'i', 'l', 'b', 'u', 'p']
          [("publication")] l := rfl

lemma keysScan_stepB (ka : List Char) (ks : List String) (l : List Char) :
    keysScan JState.inVal ka ks (tplB ++ l)
      = keysScan JState.inVal ['e', 't', 'a', 'd'] (("date") :: ks) l := rfl

lemma keysScan_stepC (ka : List Char) (ks : List String) (l : List Char) :
    keysScan JState.inVal ka ks (tplC ++ l)
      = keysScan JState.inVal ['e', 'n', 'i', 'l', 'd', 'a', 'e', 'h'] (("headline") :: ks) l := rfl

lemma keysScan_stepD (ka : List Char) (ks : List String) :
    keysScan JState.inVal ka ks tplD = some ks.reverse := rfl

/-- The serialized record re-parses to exactly the three top-level keys
publication, date, headline, in that order, for every record. -/
lemma keysOf_serialize (d : PublicationDetail) :
    keysOf (serialize d) = some [("publication"), ("date"), ("headline")] := by
  show keysOf (String.mk (tplA ++ (escList d.publication_name.toList
    ++ (tplB ++ (escList d.date.toList
      ++ (tplC ++ (escList d.headline.toList ++ tplD))))))) = _
  rw [keysOf_stepA, keysScan_escList, keysScan_stepB, keysScan_escList,
    keysScan_stepC, keysScan_escList, keysScan_stepD]
  rfl

/-! ### Output path derivation and the filesystem model

`pdf_path.with_suffix('.txt')` (src/main.py:96): the suffix of the final
component is everything from its last dot, provided that dot is neither
the leading character nor the trailing one; `with_suffix` drops it and
appends the new extension.  Paths are modelled by the file name. -/

def suffixLenRevAux : List Char → Nat → Option Nat
  | [], _ => none
  | c :: rest, j =>
      if c = '.' then (if 1 ≤ j ∧ rest ≠ [] then some (j + 1) else none)
      else suffixLenRevAux rest (j + 1)

def withSuffix (name : String) (ext : String) : String :=
  match suffixLenRevAux name.toList.reverse 0 with
  | some k => String.mk (name.toList.take (name.toList.length - k)) ++ ext
  | none => name ++ ext

/-- Filesystem as a map from path to file content. -/
def FS : Type := String → Option String

def fsWrite (fs : FS) (p c : String) : FS := fun q => if q = p then some c else fs q

def emptyFS : FS := fun _ => none

/-- src/main.py:71-112 `process_pdf`, per file: the whole unit of work
runs inside one try/except.  `r` is the outcome of `agent.run` (an
exception is `Except.error`).  On success the record is serialized and
written to the sibling `.txt` path — `open(...,'w')` plus `json.dump`,
modelled as one atomic update; on any exception nothing is written and
`None` is returned. -/
def mainpy_process_pdf (r : Except String PublicationDetail) (p : String) (fs : FS) :
    Option PublicationDetail × FS :=
  match r with
  | Except.ok d => (some d, fsWrite fs (withSuffix p (".txt")) (serialize d))
  | Except.error _ => (none, fs)

/-- src/main2.py:77-96, per file: the loop body only calls the agent and
prints; it never touches the filesystem, succeed or fail. -/
def main2_unit (r : Except String PublicationDetail) (fs : FS) : Bool × FS :=
  match r with
  | Except.ok _ => (true, fs)
  | Except.error _ => (false, fs)

def sampleDetail : PublicationDetail := ⟨"activist", "1987", "Workers Rally"⟩

lemma withSuffix_pdf (s : List Char) (hs : s ≠ []) :
    withSuffix (String.mk (s ++ ('.' :: 'p' :: 'd' :: 'f' :: []))) (".txt")
      = String.mk s ++ ".txt" := by
  have hrev : s.reverse ≠ [] := by
    simpa using hs
  unfold withSuffix
  have h1 : (String.mk (s ++ ('.' :: 'p' :: 'd' :: 'f' :: []))).toList
      = s ++ ('.' :: 'p' :: 'd' :: 'f' :: []) := rfl
  rw [h1]
  have h2 : (s ++ ('.' :: 'p' :: 'd' :: 'f' :: [])).reverse
      = 'f' :: 'd' :: 'p' :: '.' :: s.reverse := by
    simp
  rw [h2]
  have h3 : suffixLenRevAux ('f' :: 'd' :: 'p' :: '.' :: s.reverse) 0
      = (if 1 ≤ 3 ∧ s.reverse ≠ [] then some (3 + 1) else none) := rfl
  rw [h3, if_pos ⟨by omega, hrev⟩]
  have h4 : (s ++ ('.' :: 'p' :: 'd' :: 'f' :: [])).length - (3 + 1) = s.length := by
    simp
  have h5 : (s ++ ('.' :: 'p' :: 'd' :: 'f' :: [])).take s.length = s := by
    simp
  show String.mk ((s ++ ('.' :: 'p' :: 'd' :: 'f' :: [])).take
      ((s ++ ('.' :: 'p' :: 'd' :: 'f' :: [])).length - (3 + 1))) ++ ".txt"
    = String.mk s ++ ".txt"
  rw [h4, h5]

/-- C4 (counterexample): in src/main2.py a file whose processing fully
succeeds still produces no output record file — the loop never writes —
so "an output record exists iff processing succeeded" fails there. -/
theorem c4_counterexample :
    (main2_unit (Except.ok sampleDetail) emptyFS).1 = true
    ∧ (main2_unit (Except.ok sampleDetail) emptyFS).2 (withSuffix ("scan.pdf") (".txt")) = none :=
  ⟨rfl, rfl⟩

/-- C4 (amended): in the main.py variant, given no pre-existing file at
the derived output path, an output file exists after the per-file unit
iff that file's processing succeeded, and a failed file leaves the
filesystem unchanged (the single write is modelled as atomic); the
main2.py variant writes no output files at all. -/
theorem c4_write_iff_success (fs : FS) (p : String) (r : Except String PublicationDetail)
    (h : fs (withSuffix p (".txt")) = none) :
    (((mainpy_process_pdf r p fs).2 (withSuffix p (".txt"))).isSome = true
      ↔ ((mainpy_process_pdf r p fs).1).isSome = true)
    ∧ (∀ e, r = Except.error e → (mainpy_process_pdf r p fs).2 = fs) := by
  cases r with
  | ok d =>
      constructor
      · unfold mainpy_process_pdf fsWrite
        simp
      · intro e he
        simp at he
  | error msg =>
      constructor
      · unfold mainpy_process_pdf
        simp [h]
      · intro e _
        rfl

/-- C4 (witness): the amended theorem applied to a failed file on an
empty filesystem. -/
theorem c4_write_iff_success_witness :
    emptyFS (withSuffix ("scan2.pdf") (".txt")) = none
    ∧ (((mainpy_process_pdf (Except.error ("boom")) ("scan2.pdf") emptyFS).2
          (withSuffix ("scan2.pdf") (".txt"))).isSome = true
        ↔ ((mainpy_process_pdf (Except.error ("boom")) ("scan2.pdf") emptyFS).1).isSome = true)
    ∧ (mainpy_process_pdf (Except.error ("boom")) ("scan2.pdf") emptyFS).2 = emptyFS := by
  refine ⟨rfl, ?_, ?_⟩
  · exact (c4_write_iff_success emptyFS ("scan2.pdf") (Except.error ("boom")) rfl).1
  · exact (c4_write_iff_success emptyFS ("scan2.pdf") (Except.error ("boom")) rfl).2 ("boom") rfl

/-- C5: for every successfully processed `*.pdf` input (non-empty stem),
src/main.py derives the output path by replacing the extension with
`.txt`, stores there the `indent=2` three-field encoding of the record,
does so over any pre-existing content at that path, and the stored text
re-parses to exactly the keys publication, date, headline in that
order. -/
theorem c5_output_format (s : List Char) (hs : s ≠ []) (d : PublicationDetail) (fs : FS) :
    withSuffix (String.mk (s ++ ('.' :: 'p' :: 'd' :: 'f' :: []))) (".txt")
        = String.mk s ++ ".txt"
    ∧ (mainpy_process_pdf (Except.ok d) (String.mk (s ++ ('.' :: 'p' :: 'd' :: 'f' :: []))) fs).2
        (withSuffix (String.mk (s ++ ('.' :: 'p' :: 'd' :: 'f' :: []))) (".txt"))
        = some (serialize d)
    ∧ (∀ old, (mainpy_process_pdf (Except.ok d)
          (String.mk (s ++ ('.' :: 'p' :: 'd' :: 'f' :: [])))
          (fsWrite fs (withSuffix (String.mk (s ++ ('.' :: 'p' :: 'd' :: 'f' :: []))) (".txt")) old)).2
        (withSuffix (String.mk (s ++ ('.' :: 'p' :: 'd' :: 'f' :: []))) (".txt"))
        = some (serialize d))
    ∧ keysOf (serialize d) = some [("publication"), ("date"), ("headline")] := by
  refine ⟨withSuffix_pdf s hs, ?_, ?_, keysOf_serialize d⟩
  · unfold mainpy_process_pdf fsWrite
    simp
  · intro old
    unfold mainpy_process_pdf fsWrite
    simp

/-- C5 (witness): the theorem at the concrete input `scan.pdf`. -/
theorem c5_output_format_witness :
    withSuffix ("scan.pdf") (".txt") = "scan.txt"
    ∧ (mainpy_process_pdf (Except.ok sampleDetail) ("scan.pdf") emptyFS).2 ("scan.txt")
        = some (serialize sampleDetail) := by
  have h := c5_output_format (("scan").toList) (by decide) sampleDetail emptyFS
  have e : (String.mk (("scan").toList) ++ ".txt") = ("scan.txt" : String) := by decide
  refine ⟨h.1.trans e, ?_⟩
  have h2 := h.2.1
  rw [h.1, e] at h2
  exact h2

/-! ### Listing, window, and batch loop

src/main.py:126-140 `get_pdf_files`: sort the `*.pdf` glob listing by
name, then apply Python slicing `files[offset:]` and, when a count is
given, `files[:count]`.  src/main2.py:63-72 inlines the same sort and
the same two slices.  `pySliceFrom`/`pySliceTo` reproduce Python slice
semantics for an arbitrary (possibly negative) integer bound.  Sorting
is by code points, the comparison `sorted` uses on these paths. -/

def lexLe : List Char → List Char → Bool
  | a :: as, b :: bs => if a < b then true else if a = b then lexLe as bs else false
  | [], _ => true
  | _, [] => false

def strLe (a b : String) : Bool := lexLe a.toList b.toList

def insertSorted (x : String) : List String → List String
  | [] => [x]
  | y :: ys => if strLe x y then x :: y :: ys else y :: insertSorted x ys

def sortListing (l : List String) : List String := l.foldr insertSorted []

def pySliceFrom {α : Type} (l : List α) (i : Int) : List α :=
  if i < 0 then l.drop (((l.length : Int) + i).toNat) else l.drop i.toNat

def pySliceTo {α : Type} (l : List α) (i : Int) : List α :=
  if i < 0 then l.take (((l.length : Int) + i).toNat) else l.take i.toNat

def get_pdf_files (listing : List String) (offset : Int) (count : Option Int) : List String :=
  match count with
  | some c => pySliceTo (pySliceFrom (sortListing listing) offset) c
  | none => pySliceFrom (sortListing listing) offset

/-- The outcome of one `agent.run` call for one file: `behavior` maps a
file name to either a validated record or a raised exception. -/
def process_pdf_outcome (behavior : String → Except String PublicationDetail)
    (f : String) : Option PublicationDetail :=
  match behavior f with
  | Except.ok d => some d
  | Except.error _ => none

def countStep (behavior : String → Except String PublicationDetail)
    (acc : Nat × Nat) (f : String) : Nat × Nat :=
  match process_pdf_outcome behavior f with
  | some _ => (acc.1 + 1, acc.2)
  | none => (acc.1, acc.2 + 1)

/-- The counting loop of src/main.py:158-167 / src/main2.py:74-96: one
success or one failure per file, failures caught at the per-file
boundary. -/
def countResults (behavior : String → Except String PublicationDetail)
    (files : List String) : Nat × Nat :=
  files.foldl (countStep behavior) (0, 0)

/-- src/main.py:142-169 `main`: missing directory aborts with no summary
(`none`); otherwise the windowed listing is processed and the
successful/failed pair is reported. -/
def mainpy_run (dirExists : Bool) (listing : List String) (offset : Int)
    (count : Option Int) (behavior : String → Except String PublicationDetail) :
    Option (Nat × Nat) :=
  if dirExists then some (countResults behavior (get_pdf_files listing offset count))
  else none

/-- src/main2.py:51-98 `main`: missing directory aborts (`none`); an
empty pre-window listing also returns early, before the counters exist,
so no final summary is reported (`none`); otherwise the windowed listing
is processed and the pair is reported. -/
def main2_run (dirExists : Bool) (listing : List String) (offset : Int)
    (count : Option Int) (behavior : String → Except String PublicationDetail) :
    Option (Nat × Nat) :=
  if dirExists then
    (if sortListing listing = [] then none
     else some (countResults behavior (get_pdf_files listing offset count)))
  else none

def sampleBehavior : String → Except String PublicationDetail :=
  fun f => if f = "bad.pdf" then Except.error ("model failure") else Except.ok sampleDetail

lemma countResults_go (behavior : String → Except String PublicationDetail)
    (files : List String) (a b : Nat) :
    List.foldl (countStep behavior) (a, b) files
      = (a + (List.foldl (countStep behavior) (0, 0) files).1,
         b + (List.foldl (countStep behavior) (0, 0) files).2) := by
  induction files generalizing a b with
  | nil => simp
  | cons f fs ih =>
      simp only [List.foldl_cons]
      cases hpo : process_pdf_outcome behavior f with
      | some d =>
          have e1 : countStep behavior (a, b) f = (a + 1, b) := by
            simp [countStep, hpo]
          have e2 : countStep behavior (0, 0) f = (1, 0) := by
            simp [countStep, hpo]
          rw [e1, e2, ih (a + 1) b, ih 1 0]
          simp [Prod.ext_iff]
          omega
      | none =>
          have e1 : countStep behavior (a, b) f = (a, b + 1) := by
            simp [countStep, hpo]
          have e2 : countStep behavior (0, 0) f = (0, 1) := by
            simp [countStep, hpo]
          rw [e1, e2, ih a (b + 1), ih 0 1]
          simp [Prod.ext_iff]
          omega

lemma countResults_sum (behavior : String → Except String PublicationDetail)
    (files : List String) :
    (countResults behavior files).1 + (countResults behavior files).2 = files.length := by
  induction files with
  | nil => rfl
  | cons f fs ih =>
      unfold countResults at ih ⊢
      simp only [List.foldl_cons]
      cases hpo : process_pdf_outcome behavior f with
      | some d =>
          have e : countStep behavior (0, 0) f = (1, 0) := by
            simp [countStep, hpo]
          rw [e, countResults_go behavior fs 1 0]
          simp only [List.length_cons]
          omega
      | none =>
          have e : countStep behavior (0, 0) f = (0, 1) := by
            simp [countStep, hpo]
          rw [e, countResults_go behavior fs 0 1]
          simp only [List.length_cons]
          omega

/-- C8: every per-file failure is caught at the per-file boundary and
counted, and processing continues — a reported summary always sums to
the post-window listing length, and inserting a failing file into a
batch adds exactly one to the failed count while the rest of the batch
is still processed unchanged. -/
theorem c8_failure_isolation (behavior : String → Except String PublicationDetail)
    (listing : List String) (offset : Int) (count : Option Int) :
    (∀ r, mainpy_run true listing offset count behavior = some r →
        r.1 + r.2 = (get_pdf_files listing offset count).length)
    ∧ (∀ (pre : List String) (f : String) (post : List String) (e : String),
        behavior f = Except.error e →
        countResults behavior (pre ++ f :: post)
          = ((countResults behavior (pre ++ post)).1,
             (countResults behavior (pre ++ post)).2 + 1)) := by
  constructor
  · intro r h
    have h' : countResults behavior (get_pdf_files listing offset count) = r := by
      have : some (countResults behavior (get_pdf_files listing offset count)) = some r := h
      exact Option.some.inj this
    rw [← h']
    exact countResults_sum behavior (get_pdf_files listing offset count)
  · intro pre f post e he
    have hpo : process_pdf_outcome behavior f = none := by
      simp [process_pdf_outcome, he]
    unfold countResults
    rw [List.foldl_append, List.foldl_append]
    generalize List.foldl (countStep behavior) (0, 0) pre = acc
    obtain ⟨a, b⟩ := acc
    simp only [List.foldl_cons]
    have e1 : countStep behavior (a, b) f = (a, b + 1) := by
      simp [countStep, hpo]
    rw [e1, countResults_go behavior post a (b + 1), countResults_go behavior post a b]
    simp [Prod.ext_iff]
    omega

/-- C8 (witness): a two-file batch with one failing file reports 1+1 =
2 = post-window length, and the failing file adds exactly one failure. -/
theorem c8_failure_isolation_witness :
    (1 : Nat) + 1 = (get_pdf_files ["a.pdf", "bad.pdf"] 0 none).length
    ∧ countResults sampleBehavior (["a.pdf"] ++ ("bad.pdf") :: [])
        = ((countResults sampleBehavior (["a.pdf"] ++ [])).1,
           (countResults sampleBehavior (["a.pdf"] ++ [])).2 + 1) := by
  constructor
  · exact (c8_failure_isolation sampleBehavior ["a.pdf", "bad.pdf"] 0 none).1 (1, 1) rfl
  · exact (c8_failure_isolation sampleBehavior ["a.pdf", "bad.pdf"] 0 none).2
      ["a.pdf"] ("bad.pdf") [] ("model failure") rfl

/-- C9 (counterexample): with an empty (hence empty post-window) listing,
src/main2.py:65-67 returns early and never prints the final
successful/failed summary, so no zero/zero count is reported there. -/
theorem c9_counterexample :
    get_pdf_files [] 0 none = []
    ∧ main2_run true [] 0 none (fun _ => Except.ok sampleDetail) = none :=
  ⟨rfl, rfl⟩

/-- C9 (amended): with an empty post-window listing, src/main.py always
completes and reports zero successes and zero failures; src/main2.py
does so only when the pre-window listing is non-empty — an empty
pre-window listing makes it exit early with no final count. -/
theorem c9_empty_window_report (listing : List String) (offset : Int) (count : Option Int)
    (behavior : String → Except String PublicationDetail)
    (h : get_pdf_files listing offset count = []) :
    mainpy_run true listing offset count behavior = some (0, 0)
    ∧ (sortListing listing ≠ [] →
        main2_run true listing offset count behavior = some (0, 0)) := by
  constructor
  · show some (countResults behavior (get_pdf_files listing offset count)) = some (0, 0)
    rw [h]
    rfl
  · intro hne
    show (if sortListing listing = [] then none
          else some (countResults behavior (get_pdf_files listing offset count)))
        = some (0, 0)
    rw [if_neg hne, h]
    rfl

/-- C9 (witness): offset past the end of a one-file listing — both
variants report a zero/zero summary. -/
theorem c9_empty_window_report_witness :
    mainpy_run true ["a.pdf"] 5 none sampleBehavior = some (0, 0)
    ∧ main2_run true ["a.pdf"] 5 none sampleBehavior = some (0, 0) := by
  have h := c9_empty_window_report ["a.pdf"] 5 none sampleBehavior rfl
  exact ⟨h.1, h.2 (by decide)⟩

/-- C7: for a non-negative offset k and positive count m, the window is
exactly the slice [k, k+m) of the sorted listing — offset first, then
count — and an offset at or past the end yields the empty selection
rather than an error (the slicing functions are total). -/
theorem c7_window_slice (listing : List String) (k m : Nat) (hm : 0 < m) :
    get_pdf_files listing (k : Int) (some (m : Int))
        = ((sortListing listing).drop k).take m
    ∧ (∀ i, i < m →
        (get_pdf_files listing (k : Int) (some (m : Int)))[i]?
          = (sortListing listing)[k + i]?)
    ∧ ((sortListing listing).length ≤ k →
        get_pdf_files listing (k : Int) (some (m : Int)) = []) := by
  have hk : ¬ ((k : Int) < 0) := by omega
  have hm' : ¬ ((m : Int) < 0) := by omega
  have hslice : get_pdf_files listing (k : Int) (some (m : Int))
      = ((sortListing listing).drop k).take m := by
    unfold get_pdf_files pySliceFrom pySliceTo
    simp [hk, hm']
  refine ⟨hslice, ?_, ?_⟩
  · intro i hi
    rw [hslice, List.getElem?_take_of_lt hi, List.getElem?_drop]
  · intro hpast
    rw [hslice, List.drop_eq_nil_of_le hpast]
    simp

/-- C7 (witness): the window offset=1, count=2 of a three-file listing. -/
theorem c7_window_slice_witness :
    (0 : Nat) < 2
    ∧ get_pdf_files ["b.pdf", "a.pdf", "c.pdf"] ((1 : Nat) : Int) (some ((2 : Nat) : Int))
        = ["b.pdf", "c.pdf"] := by
  refine ⟨by decide, ?_⟩
  exact ((c7_window_slice ["b.pdf", "a.pdf", "c.pdf"] 1 2 (by decide)).1).trans (by decide)

/-- C10: a negative offset -k is never rejected — no non-negativity check
exists — and Python slice semantics make `files[-k:]` select the last k
files of the sorted listing. -/
theorem c10_negative_offset (listing : List String) (k : Nat) (h1 : 0 < k)
    (h2 : k ≤ (sortListing listing).length) :
    get_pdf_files listing (-(k : Int)) none
        = (sortListing listing).drop ((sortListing listing).length - k)
    ∧ (get_pdf_files listing (-(k : Int)) none).length = k := by
  have hneg : (-(k : Int)) < 0 := by omega
  have hs : get_pdf_files listing (-(k : Int)) none
      = (sortListing listing).drop ((sortListing listing).length - k) := by
    unfold get_pdf_files pySliceFrom
    rw [if_pos hneg]
    have e : (((sortListing listing).length : Int) + -(k : Int)).toNat
        = (sortListing listing).length - k := by omega
    rw [e]
  refine ⟨hs, ?_⟩
  rw [hs, List.length_drop]
  omega

/-- C10 (witness): offset -2 on a three-file listing selects the last
two files. -/
theorem c10_negative_offset_witness :
    get_pdf_files ["a.pdf", "b.pdf", "c.pdf"] (-((2 : Nat) : Int)) none
      = ["b.pdf", "c.pdf"] := by
  exact ((c10_negative_offset ["a.pdf", "b.pdf", "c.pdf"] 2 (by decide) (by decide)).1).trans
    (by decide)

/-! ### The model-service request loop (src/main.py:31-38,82-89 and
src/main2.py:22-29,79-83)

Both scripts configure the pydantic_ai `Agent` with a registered
`get_pdf_content` tool, a system prompt instructing the model to use
that tool, and `result_type=PublicationDetail`.  A run is therefore the
library's request loop: issue a model request; if the response invokes
the tool, run it and issue another request carrying the tool result; if
the response carries the structured result, validate it against
`PublicationDetail` and stop.  `UsageLimits` caps the number of
requests: src/main2.py:82 sets `request_limit=2` (main.py sets only the
token budgets).  `script` lists the model's responses in order; the
returned pair is (requests issued, validated result if any). -/

inductive ModelResponse where
  | callTool : ModelResponse
  | result : String → String → String → ModelResponse

def agentRunAux : Nat → Nat → List ModelResponse → Nat × Option PublicationDetail
  | _, n, [] => (n, none)
  | limit, n, resp :: rest =>
      if limit ≤ n then (n, none)
      else
        match resp with
        | ModelResponse.callTool => agentRunAux limit (n + 1) rest
        | ModelResponse.result p d h => (n + 1, validatePublicationDetail p d h)

def agentRun (script : List ModelResponse) (limit : Nat) : Nat × Option PublicationDetail :=
  agentRunAux limit 0 script

/-- `request_limit=2` from src/main2.py:82. -/
def main2_request_limit : Nat := 2

/-- `response_tokens_limit=300` from src/main.py:86 / src/main2.py:82. -/
def response_tokens_budget : Nat := 300

/-- `request_tokens_limit=5000` from src/main.py:87 / src/main2.py:82. -/
def request_tokens_budget : Nat := 5000

/-- C6 (counterexample): the configured flow is two-turn, not one-call:
the instructed run — the model first invokes `get_pdf_content`, then
returns the structured result — issues exactly 2 model requests and
completes successfully within main2's own `request_limit=2`; 2 ≠ 1. -/
theorem c6_counterexample :
    agentRun [ModelResponse.callTool,
        ModelResponse.result ("activist") ("01/1987") ("Workers Rally")] main2_request_limit
      = (2, some ⟨"activist", "01/1987", "Workers Rally"⟩)
    ∧ (2 : Nat) ≠ 1 := by
  constructor
  · rfl
  · decide

/-- C6 (amended): per document the classifier issues at most
`request_limit` model requests (2 in main2), and the tool-using flow the
system prompt instructs — one response invoking the tool, one returning
the result — issues exactly two. -/
theorem c6_request_cap :
    (∀ (script : List ModelResponse) (limit : Nat), (agentRun script limit).1 ≤ limit)
    ∧ (∀ p d h, (agentRun [ModelResponse.callTool, ModelResponse.result p d h]
        main2_request_limit).1 = 2) := by
  constructor
  · intro script limit
    have aux : ∀ (s : List ModelResponse) (n : Nat), n ≤ limit →
        (agentRunAux limit n s).1 ≤ limit := by
      intro s
      induction s with
      | nil => intro n hn; exact hn
      | cons resp rest ih =>
          intro n hn
          unfold agentRunAux
          by_cases hle : limit ≤ n
          · rw [if_pos hle]
            exact hn
          · rw [if_neg hle]
            cases resp with
            | callTool => exact ih (n + 1) (by omega)
            | result p d h =>
                show n + 1 ≤ limit
                omega
    exact aux script 0 (by omega)
  · intro p d h
    rfl

/-! ### Free-text recovery (spec §4.4, StructuredResultParser)

No free-text recovery parser exists under src/: both scripts delegate
structured-output handling to the pydantic_ai `Agent`
(src/main.py:31-38), so only the caller of this capability is in the
sources.  The definitions below are therefore modelled from the
specification's recovery algorithm and validated against it. -/

/-- Modelled from the spec: the `ParseError` sub-kinds of §7 (the source
has no such type; failures surface as library exceptions). -/
inductive ParseError where
  | notFound | malformed | invalidEnum | invalidDate | emptyHeadline
deriving DecidableEq

def btick : Char := Char.ofNat 96

/-- Modelled from the spec: find the first triple-backtick marker,
returning the text before it and the text after it. -/
def splitFence : List Char → Option (List Char × List Char)
  | [] => none
  | c :: rest =>
      if c = btick ∧ rest.take 2 = [btick, btick] then some ([], rest.drop 2)
      else (splitFence rest).map (fun pr => (c :: pr.1, pr.2))

/-- Modelled from the spec: the optional `json` tag right after the
opening fence. -/
def dropJsonTag : List Char → List Char
  | 'j' :: 's' :: 'o' :: 'n' :: rest => rest
  | l => l

/-- Modelled from the spec: the brace-matching scan that tolerates one
level of nested braces — depth starts at 1 at the opening brace, a
second `{` is tolerated, a third fails the scan. -/
def scanObject : Nat → List Char → List Char → Option (List Char)
  | _, _, [] => none
  | d, acc, c :: rest =>
      if c = '{' then (if 2 ≤ d then none else scanObject (d + 1) (c :: acc) rest)
      else if c = '}' then
        (if d = 1 then some ((c :: acc).reverse) else scanObject (d - 1) (c :: acc) rest)
      else scanObject d (c :: acc) rest

/-- Modelled from the spec: the outermost balanced-brace object of a
text, via `scanObject` from the first opening brace. -/
def braceExtractL : List Char → Option (List Char)
  | [] => none
  | c :: rest => if c = '{' then scanObject 1 ['{'] rest else braceExtractL rest

/-- Modelled from the spec: recovery step 1 — a fenced code block
(triple backticks, optionally tagged `json`) containing a
brace-delimited object. -/
def fencedExtract (s : String) : Option String :=
  match splitFence s.toList with
  | none => none
  | some (_, afterOpen) =>
      match splitFence (dropJsonTag afterOpen) with
      | none => none
      | some (inner, _) => (braceExtractL inner).map String.mk

/-- Modelled from the spec: recovery step 2 — the balanced-brace scan
over the full text. -/
def braceExtractS (s : String) : Option String := (braceExtractL s.toList).map String.mk

/-- Modelled from the spec: the candidate text span, trying the fenced
block first and the full-text brace scan second, first match wins. -/
def recoverCandidate (s : String) : Option String :=
  match fencedExtract s with
  | some t => some t
  | none => braceExtractS s

def listStartsWith : List Char → List Char → Bool
  | p :: ps, c :: cs => if p = c then listStartsWith ps cs else false
  | [], _ => true
  | _, [] => false

def dropAfterPat (pat : List Char) : List Char → Option (List Char)
  | [] => none
  | c :: rest =>
      if listStartsWith pat (c :: rest) then some ((c :: rest).drop pat.length)
      else dropAfterPat pat rest

def readStringVal : List Char → List Char → Option (List Char)
  | _, [] => none
  | acc, '"' :: _ => some acc.reverse
  | acc, '\\' :: e :: rest => readStringVal (e :: '\\' :: acc) rest
  | acc, c :: rest => readStringVal (c :: acc) rest

/-- Modelled from the spec: strict deserialization of one named string
field of the candidate object (quoted key, colon, quoted value). -/
def getField (key : String) (l : List Char) : Option String :=
  match dropAfterPat ('"' :: (key.toList ++ ['"'])) l with
  | none => none
  | some rest =>
      match skipWs rest with
      | ':' :: r2 =>
          (match skipWs r2 with
           | '"' :: r3 => (readStringVal [] r3).map String.mk
           | _ => none)
      | _ => none

/-- Modelled from the spec: strict deserialization of the candidate into
the three required fields; failure is the `malformed` sub-kind, distinct
from `notFound`. -/
def deserializeCandidate (t : String) : Except ParseError (String × String × String) :=
  match getField ("publication") t.toList, getField ("date") t.toList,
      getField ("headline") t.toList with
  | some p, some d, some h => Except.ok (p, d, h)
  | _, _, _ => Except.error ParseError.malformed

/-- Modelled from the spec: validation after parsing — enumeration
membership, date shape, non-empty headline (§4.4). -/
def specValidate (p d h : String) : Except ParseError PublicationDetail :=
  if p ∈ specPublicationValues then
    (if specDateShape d then
      (if h = "" then Except.error ParseError.emptyHeadline else Except.ok ⟨p, d, h⟩)
     else Except.error ParseError.invalidDate)
  else Except.error ParseError.invalidEnum

/-- Modelled from the spec: the free-text arm of StructuredResultParser —
recover a candidate span, strictly deserialize it, validate the fields;
no candidate at all is the `notFound` sub-kind. -/
def parseFreeText (s : String) : Except ParseError PublicationDetail :=
  match recoverCandidate s with
  | none => Except.error ParseError.notFound
  | some t =>
      match deserializeCandidate t with
      | Except.error e => Except.error e
      | Except.ok (p, d, h) => specValidate p d h

/-- C3: candidate recovery tries the fenced block first (its match wins
outright), falls back to the balanced-brace scan of the full text only
when no fenced block matches, and when no candidate is found at all the
parse fails with the not-found sub-kind of ParseError. -/
theorem c3_recovery_order (s : String) :
    (∀ t, fencedExtract s = some t → recoverCandidate s = some t)
    ∧ (fencedExtract s = none → recoverCandidate s = braceExtractS s)
    ∧ (recoverCandidate s = none → parseFreeText s = Except.error ParseError.notFound) := by
  refine ⟨?_, ?_, ?_⟩
  · intro t h
    unfold recoverCandidate
    rw [h]
  · intro h
    unfold recoverCandidate
    rw [h]
  · intro h
    unfold parseFreeText
    rw [h]

/-- C3 (witness): a fenced `json` block inside prose is recovered exactly;
prose with no braces at all falls through both steps and parsing fails
with `notFound`. -/
theorem c3_recovery_order_witness :
    recoverCandidate ("Commentary before\n```json\n\x7b\"publication\": \"activist\", \"date\": \"1987\", \"headline\": \"Workers Rally\"\x7d\n```\nCommentary after.")
      = some ("\x7b\"publication\": \"activist\", \"date\": \"1987\", \"headline\": \"Workers Rally\"\x7d")
    ∧ recoverCandidate ("plain prose with no braces at all")
        = braceExtractS ("plain prose with no braces at all")
    ∧ parseFreeText ("plain prose with no braces at all")
        = Except.error ParseError.notFound := by
  refine ⟨?_, ?_, ?_⟩
  · exact (c3_recovery_order _).1 _ rfl
  · exact (c3_recovery_order _).2.1 rfl
  · exact (c3_recovery_order _).2.2 rfl
